import Mathlib

/-!
Verification of the Opal Privacy Metrics Engine against its natural-language
specification.  The definitions below are a shallow embedding of
`src/opal-ui/src/services/privacyMetricsEngine.js` (the engine) and of
`calculateAggregatedMetrics` in `src/opal-ui/src/App.jsx` (the session
aggregator).  JavaScript numbers are modelled as rationals (`ℚ`), integer
results as `ℤ`; `Math.round` is `jsRound` (round half toward +∞, i.e.
`⌊x + 1/2⌋`, which is what `Math.round` computes); a JS `NaN` arising from a
`0/0` is modelled by `Option.none`.  Definitions clearly marked `spec...`
restate formulas from the specification document for comparison with the code.
-/

namespace Opal

/-- The five sensitivity levels of `this.sensitivityClassification`. -/
inductive SensitivityLevel
  | PUBLIC
  | INTERNAL
  | CONFIDENTIAL
  | RESTRICTED
  | TOP_SECRET
deriving DecidableEq, Repr

/-- Sensitivity finding types appearing in the engine's pattern tables. -/
inductive SensitivityType
  | EMAIL
  | PHONE
  | SSN
  | CREDIT_CARD
  | ADDRESS
  | NAME
  | BIRTHDATE
  | FINANCIAL
  | MEDICAL
  | ID_NUMBER
  | PERSON
  | ORGANIZATION
  | LOCATION
  | DATE
  | MONEY
  | GENERAL
  | TEXT
  | DOCUMENT
  | VEHICLE
  | BUILDING
deriving DecidableEq, Repr

/-- One scored sensitivity finding (a `dataTypes` entry built by the
`analyze*Sensitivity` methods): `{ field, type, isPII, sensitivityScore,
confidence }`. -/
structure SensitivityFinding where
  field : String
  type : SensitivityType
  isPII : Bool
  sensitivityScore : ℚ
  confidence : ℚ
deriving DecidableEq, Repr

/-- JavaScript `Math.round`: round half toward +∞, `⌊x + 1/2⌋`. -/
def jsRound (q : ℚ) : ℤ :=
  ⌊q + 1/2⌋

/-- JavaScript `Math.min` on integer-valued numbers. -/
def jsMin (a b : ℤ) : ℤ :=
  if a ≤ b then a else b

/-- JavaScript `Math.max` on integer-valued numbers. -/
def jsMax (a b : ℤ) : ℤ :=
  if b ≤ a then a else b

/-- `calculateSensitivityScore(dataTypes)` (privacyMetricsEngine.js:431-438):
empty list returns 20, otherwise `Math.min(100, Math.round(avgScore +
piiBonus))` where `avgScore` is the mean of the `sensitivityScore`s and
`piiBonus` is 5 per PII finding. -/
def calculateSensitivityScore (dataTypes : List SensitivityFinding) : ℤ :=
  if dataTypes.length = 0 then 20
  else
    let avgScore : ℚ := (dataTypes.map (·.sensitivityScore)).sum / dataTypes.length
    let piiBonus : ℚ := ((dataTypes.filter (·.isPII)).length : ℚ) * 5
    jsMin 100 (jsRound (avgScore + piiBonus))

/-- `getSensitivityLevel(score)` (privacyMetricsEngine.js:440-446). -/
def getSensitivityLevel (score : ℤ) : SensitivityLevel :=
  if score ≥ 85 then .TOP_SECRET
  else if score ≥ 70 then .RESTRICTED
  else if score ≥ 50 then .CONFIDENTIAL
  else if score ≥ 30 then .INTERNAL
  else .PUBLIC

/-- Clamp a rational into `[lo, hi]` (spec's `clamp`). -/
def clampQ (x lo hi : ℚ) : ℚ :=
  if x ≤ lo then lo else if hi ≤ x then hi else x

/-- The overall-score formula exactly as the specification states it
(spec §4.1): `clamp(mean(findingScores) + 5 * countPII, 0, 100)`, with no
rounding. -/
def specSensitivityScoreFormula (fs : List SensitivityFinding) : ℚ :=
  clampQ ((fs.map (·.sensitivityScore)).sum / fs.length
    + 5 * ((fs.filter (·.isPII)).length : ℚ)) 0 100

/-- The level threshold table exactly as the specification states it
(spec §4.1): inclusive lower bounds 85 / 70 / 50 / 30. -/
def specLevelTable (score : ℤ) : SensitivityLevel :=
  if score ≥ 85 then .TOP_SECRET
  else if score ≥ 70 then .RESTRICTED
  else if score ≥ 50 then .CONFIDENTIAL
  else if score ≥ 30 then .INTERNAL
  else .PUBLIC

/-- The code's level function agrees with the specification's threshold
table at every score. -/
theorem getSensitivityLevel_eq_specLevelTable (s : ℤ) :
    getSensitivityLevel s = specLevelTable s := rfl

/-- C1 counterexample: two non-PII findings with scores 1 and 2 have mean
3/2; the code rounds (`Math.round(1.5) = 2`) while the claim's formula
`clamp(mean + 5*countPII, 0, 100)` yields 3/2, so the claimed equation fails. -/
theorem C1_counterexample :
    ((calculateSensitivityScore
        [⟨"a", .GENERAL, false, 1, 50⟩, ⟨"b", .GENERAL, false, 2, 50⟩] : ℚ)
      ≠ specSensitivityScoreFormula
        [⟨"a", .GENERAL, false, 1, 50⟩, ⟨"b", .GENERAL, false, 2, 50⟩]) := by
  have h : calculateSensitivityScore
      [⟨"a", .GENERAL, false, 1, 50⟩, ⟨"b", .GENERAL, false, 2, 50⟩] = 2 := by
    norm_num [calculateSensitivityScore, jsMin, jsRound, Int.floor_eq_iff]
  rw [h]
  norm_num [specSensitivityScoreFormula, clampQ]

/-- C1 (amended): for every non-empty finding sequence the profile score is
`min(100, round(mean(findingScores) + 5 * countPII))` with round-half-up
rounding (for the data model's non-negative finding scores this equals
`clamp(round(mean + 5*countPII), 0, 100)`), and the level is the
specification's threshold-table value of that score. -/
theorem C1_sensitivity_profile (fs : List SensitivityFinding) (h : fs ≠ []) :
    calculateSensitivityScore fs
        = jsMin 100 (jsRound ((fs.map (·.sensitivityScore)).sum / fs.length
            + 5 * ((fs.filter (·.isPII)).length : ℚ)))
      ∧ getSensitivityLevel (calculateSensitivityScore fs)
        = specLevelTable (calculateSensitivityScore fs) := by
  refine ⟨?_, rfl⟩
  have hlen : fs.length ≠ 0 := fun hl => h (List.length_eq_zero.mp hl)
  simp only [calculateSensitivityScore, hlen, if_false]
  ring_nf

/-- C1 witness: the amended statement evaluated on a single EMAIL finding
of score 80. -/
theorem C1_sensitivity_profile_witness :
    ([(⟨"email", .EMAIL, true, 80, 90⟩ : SensitivityFinding)] ≠ [])
      ∧ (calculateSensitivityScore [⟨"email", .EMAIL, true, 80, 90⟩]
            = jsMin 100 (jsRound
                (([(⟨"email", .EMAIL, true, 80, 90⟩ :
                    SensitivityFinding)].map (·.sensitivityScore)).sum
                    / ([(⟨"email", .EMAIL, true, 80, 90⟩ :
                        SensitivityFinding)].length)
                  + 5 * ((([(⟨"email", .EMAIL, true, 80, 90⟩ :
                      SensitivityFinding)].filter (·.isPII)).length : ℚ))))
          ∧ getSensitivityLevel
              (calculateSensitivityScore [⟨"email", .EMAIL, true, 80, 90⟩])
            = specLevelTable
              (calculateSensitivityScore [⟨"email", .EMAIL, true, 80, 90⟩])) :=
  ⟨by decide, C1_sensitivity_profile [⟨"email", .EMAIL, true, 80, 90⟩] (by decide)⟩

/-- C4 counterexample: on the empty finding list the code yields score 20,
and `getSensitivityLevel 20` is PUBLIC (20 < 30), not INTERNAL as claimed. -/
theorem C4_counterexample :
    getSensitivityLevel (calculateSensitivityScore []) ≠ .INTERNAL := by
  decide

/-- C4 (amended): an artifact with an empty extracted-signal sequence yields
overallScore 20 and level PUBLIC (the threshold table maps 20 below the
INTERNAL bound of 30), and no error. -/
theorem C4_empty_signals :
    calculateSensitivityScore [] = 20
      ∧ getSensitivityLevel (calculateSensitivityScore []) = .PUBLIC := by
  decide

/-- The four compliance frameworks of `this.complianceFrameworks`. -/
inductive Framework
  | GDPR
  | HIPAA
  | CCPA
  | SOX
deriving DecidableEq, Repr

/-- Compliance status values. -/
inductive ComplianceStatus
  | COMPLIANT
  | NEEDS_ATTENTION
  | NON_COMPLIANT
deriving DecidableEq, Repr

/-- One per-framework compliance result: the stored `score` (clamped) and
`status` fields set at privacyMetricsEngine.js:277-281.  The random advisory
`requirements` checklist does not feed back into the score and is omitted. -/
structure ComplianceResult where
  score : ℤ
  status : ComplianceStatus
deriving DecidableEq, Repr

/-- A derived sensitivity profile: the finding sequence and its level
(spec §3 `SensitivityProfile`). -/
structure SensitivityProfile where
  findings : List SensitivityFinding
  level : SensitivityLevel
deriving DecidableEq, Repr

/-- The `score` variable of `assessCompliance` (privacyMetricsEngine.js:242-249)
after the sensitivity adjustment: 85, minus 15 for RESTRICTED else 10 for
CONFIDENTIAL (no other level is tested). -/
def levelAdjustedScore (level : SensitivityLevel) : ℤ :=
  if level = .RESTRICTED then 85 - 15
  else if level = .CONFIDENTIAL then 85 - 10
  else 85

/-- The `score` variable after the PII-presence adjustment
(privacyMetricsEngine.js:251-256): minus 10 when more than five PII fields,
else minus 5 when more than two. -/
def piiAdjustedScore (level : SensitivityLevel)
    (piiFields : List SensitivityFinding) : ℤ :=
  if piiFields.length > 5 then levelAdjustedScore level - 10
  else if piiFields.length > 2 then levelAdjustedScore level - 5
  else levelAdjustedScore level

/-- The `score` variable after the framework-specific adjustment
(privacyMetricsEngine.js:258-275); this is the value the `status` ternary
reads, before clamping. -/
def rawComplianceScore (level : SensitivityLevel)
    (piiFields : List SensitivityFinding) (framework : Framework) : ℤ :=
  match framework with
  | .GDPR =>
      if piiFields.any (fun f => f.type == .EMAIL || f.type == .NAME)
      then piiAdjustedScore level piiFields - 5
      else piiAdjustedScore level piiFields
  | .HIPAA =>
      if piiFields.any (fun f => f.type == .MEDICAL)
      then piiAdjustedScore level piiFields - 10
      else piiAdjustedScore level piiFields
  | .CCPA =>
      if piiFields.any (fun f => f.type == .FINANCIAL)
      then piiAdjustedScore level piiFields - 8
      else piiAdjustedScore level piiFields
  | .SOX => piiAdjustedScore level piiFields

/-- `assessCompliance` (privacyMetricsEngine.js:238-285) for one framework:
the stored `score` is the raw score clamped to `[60, 98]`
(`Math.max(60, Math.min(98, score))`), while the `status` ternary reads the
unclamped raw score. -/
def assessCompliance (level : SensitivityLevel)
    (piiFields : List SensitivityFinding) (framework : Framework) :
    ComplianceResult :=
  { score := jsMax 60 (jsMin 98 (rawComplianceScore level piiFields framework)),
    status :=
      if rawComplianceScore level piiFields framework ≥ 85 then .COMPLIANT
      else if rawComplianceScore level piiFields framework ≥ 70 then .NEEDS_ATTENTION
      else .NON_COMPLIANT }

/-- `assessCompliance` applied to a SensitivityProfile: the pipeline's
`piiFields` is `dataTypes.filter(dt => dt.isPII)` (privacyMetricsEngine.js:104). -/
def assessComplianceP (p : SensitivityProfile) (framework : Framework) :
    ComplianceResult :=
  assessCompliance p.level (p.findings.filter (·.isPII)) framework

/-- The per-framework score formula exactly as claim C2 states it: base 85,
minus 15 if level is RESTRICTED or TOP_SECRET else 10 if CONFIDENTIAL,
minus the PII-count penalty, minus a framework penalty triggered by any
finding (PII or not) of the named types, clamped to `[60, 98]`. -/
def claimFrameworkScore (p : SensitivityProfile) (framework : Framework) : ℤ :=
  jsMax 60 (jsMin 98 (85
    - (if p.level = .RESTRICTED ∨ p.level = .TOP_SECRET then 15
       else if p.level = .CONFIDENTIAL then 10 else 0)
    - (if (p.findings.filter (·.isPII)).length > 5 then 10
       else if (p.findings.filter (·.isPII)).length > 2 then 5 else 0)
    - (match framework with
       | .GDPR => if p.findings.any (fun f => f.type == .EMAIL || f.type == .NAME)
           then 5 else 0
       | .HIPAA => if p.findings.any (fun f => f.type == .MEDICAL) then 10 else 0
       | .CCPA => if p.findings.any (fun f => f.type == .FINANCIAL) then 8 else 0
       | .SOX => 0)))

/-- The sensitivity-level penalty as amended: only RESTRICTED subtracts 15
(TOP_SECRET subtracts nothing), CONFIDENTIAL subtracts 10. -/
def amendedLevelPenalty (level : SensitivityLevel) : ℤ :=
  if level = .RESTRICTED then 15
  else if level = .CONFIDENTIAL then 10 else 0

/-- The PII-count penalty: 10 above five PII findings, 5 above two. -/
def piiCountPenalty (piiFields : List SensitivityFinding) : ℤ :=
  if piiFields.length > 5 then 10
  else if piiFields.length > 2 then 5 else 0

/-- The framework-specific penalty, computed over the PII findings:
GDPR 5 on EMAIL or NAME, HIPAA 10 on MEDICAL, CCPA 8 on FINANCIAL, SOX 0. -/
def frameworkPenalty (piiFields : List SensitivityFinding)
    (framework : Framework) : ℤ :=
  match framework with
  | .GDPR => if piiFields.any (fun f => f.type == .EMAIL || f.type == .NAME)
      then 5 else 0
  | .HIPAA => if piiFields.any (fun f => f.type == .MEDICAL) then 10 else 0
  | .CCPA => if piiFields.any (fun f => f.type == .FINANCIAL) then 8 else 0
  | .SOX => 0

/-- The per-framework score formula as amended: base 85 minus the three
penalties (RESTRICTED-only level penalty, PII-count penalty, framework
penalty over PII findings), clamped to `[60, 98]`. -/
def amendedFrameworkScore (p : SensitivityProfile) (framework : Framework) : ℤ :=
  jsMax 60 (jsMin 98 (85
    - amendedLevelPenalty p.level
    - piiCountPenalty (p.findings.filter (·.isPII))
    - frameworkPenalty (p.findings.filter (·.isPII)) framework))

/-- The raw (unclamped) compliance score decomposes into base 85 minus the
three independent penalties. -/
theorem rawComplianceScore_decompose (level : SensitivityLevel)
    (piiFields : List SensitivityFinding) (framework : Framework) :
    rawComplianceScore level piiFields framework
      = 85 - amendedLevelPenalty level - piiCountPenalty piiFields
          - frameworkPenalty piiFields framework := by
  cases framework <;>
    simp only [rawComplianceScore, piiAdjustedScore, levelAdjustedScore,
      amendedLevelPenalty, piiCountPenalty, frameworkPenalty] <;>
    split_ifs <;>
    omega

/-- The raw compliance score always lies in `[50, 85]`. -/
theorem rawComplianceScore_bounds (level : SensitivityLevel)
    (piiFields : List SensitivityFinding) (framework : Framework) :
    50 ≤ rawComplianceScore level piiFields framework
      ∧ rawComplianceScore level piiFields framework ≤ 85 := by
  cases framework <;>
    simp only [rawComplianceScore, piiAdjustedScore, levelAdjustedScore] <;>
    split_ifs <;>
    omega

/-- C2 counterexample: a TOP_SECRET profile whose only finding is a non-PII
EMAIL finding.  The code subtracts nothing (its level branch tests only
RESTRICTED and CONFIDENTIAL, and its GDPR branch scans only PII findings),
scoring 85, while the claim's formula yields 85 - 15 - 5 = 65. -/
theorem C2_counterexample :
    (assessComplianceP ⟨[⟨"img", .EMAIL, false, 25, 50⟩], .TOP_SECRET⟩
        .GDPR).score
      ≠ claimFrameworkScore ⟨[⟨"img", .EMAIL, false, 25, 50⟩], .TOP_SECRET⟩
        .GDPR := by
  decide

/-- C2 (amended): every framework score equals base 85 minus 15 for
RESTRICTED (TOP_SECRET subtracts nothing) else 10 for CONFIDENTIAL, minus the
PII-count penalty (10 above five, 5 above two), minus the framework-specific
penalty computed over the PII findings only, clamped to `[60, 98]`. -/
theorem C2_compliance_score (p : SensitivityProfile) (framework : Framework) :
    (assessComplianceP p framework).score = amendedFrameworkScore p framework := by
  simp only [assessComplianceP, assessCompliance, amendedFrameworkScore,
    rawComplianceScore_decompose]

/-- The status threshold table exactly as the specification states it
(spec §3): ≥85 COMPLIANT, ≥70 NEEDS_ATTENTION, else NON_COMPLIANT. -/
def specStatusTable (score : ℤ) : ComplianceStatus :=
  if score ≥ 85 then .COMPLIANT
  else if score ≥ 70 then .NEEDS_ATTENTION
  else .NON_COMPLIANT

/-- C5: for every sensitivity level, every finding list and every framework,
the stored compliance score lies in `[60, 98]` and the stored status is
exactly the specification's threshold value of that stored score. -/
theorem C5_compliance_invariant (level : SensitivityLevel)
    (piiFields : List SensitivityFinding) (framework : Framework) :
    (60 ≤ (assessCompliance level piiFields framework).score
        ∧ (assessCompliance level piiFields framework).score ≤ 98)
      ∧ (assessCompliance level piiFields framework).status
        = specStatusTable (assessCompliance level piiFields framework).score := by
  have h := rawComplianceScore_bounds level piiFields framework
  simp only [assessCompliance, specStatusTable, jsMax, jsMin]
  generalize rawComplianceScore level piiFields framework = n at h
  obtain ⟨h1, h2⟩ := h
  split_ifs <;>
    refine ⟨⟨?_, ?_⟩, ?_⟩ <;>
    first
      | rfl
      | omega

/-- The nine fixed privacy techniques of `this.privacyTechniques`. -/
inductive Technique
  | DIFFERENTIAL_PRIVACY
  | HOMOMORPHIC_ENCRYPTION
  | SECURE_MULTIPARTY
  | K_ANONYMITY
  | L_DIVERSITY
  | T_CLOSENESS
  | DATA_MASKING
  | TOKENIZATION
  | FEDERATED_LEARNING
deriving DecidableEq, Repr

/-- Recommendation priorities. -/
inductive Priority
  | LOW
  | MEDIUM
  | HIGH
deriving DecidableEq, Repr

/-- One technique recommendation entry pushed by
`recommendPrivacyTechniques`. -/
structure TechniqueRecommendation where
  technique : Technique
  priority : Priority
  reason : String
deriving DecidableEq, Repr

/-- Artifact kinds distinguished by the `fileAnalysis.fileType` switches;
`other` stands for any value besides csv / image / document (both switches
fall through for it). -/
inductive FileType
  | csv
  | image
  | document
  | other
deriving DecidableEq, Repr

/-- The fixed `effectivenessScore` table of `this.privacyTechniques`
(privacyMetricsEngine.js:21-31). -/
def effectivenessScore : Technique → ℚ
  | .DIFFERENTIAL_PRIVACY => 95
  | .HOMOMORPHIC_ENCRYPTION => 98
  | .SECURE_MULTIPARTY => 92
  | .K_ANONYMITY => 75
  | .L_DIVERSITY => 80
  | .T_CLOSENESS => 85
  | .DATA_MASKING => 60
  | .TOKENIZATION => 70
  | .FEDERATED_LEARNING => 88

/-- `recommendPrivacyTechniques` (privacyMetricsEngine.js:287-370): a first
switch on the sensitivity level pushes one or two entries, a second switch on
the file type appends at most one more, and `slice(0, 4)` truncates. -/
def recommendPrivacyTechniques (fileType : FileType) (level : SensitivityLevel)
    (piiFields : List SensitivityFinding) : List TechniqueRecommendation :=
  let recommendations : List TechniqueRecommendation :=
    match level with
    | .RESTRICTED | .TOP_SECRET =>
        [⟨.HOMOMORPHIC_ENCRYPTION, .HIGH,
          "Maximum privacy protection for highly sensitive data"⟩,
         ⟨.SECURE_MULTIPARTY, .HIGH,
          "Secure computation without revealing individual data points"⟩]
    | .CONFIDENTIAL =>
        [⟨.DIFFERENTIAL_PRIVACY, .HIGH,
          "Strong privacy guarantees with statistical utility"⟩,
         ⟨.FEDERATED_LEARNING, .MEDIUM,
          "Distributed processing without data centralization"⟩]
    | .INTERNAL =>
        [⟨.K_ANONYMITY, .MEDIUM, "Effective anonymization for internal use"⟩,
         ⟨.TOKENIZATION, .MEDIUM,
          "Replace sensitive values with non-sensitive tokens"⟩]
    | .PUBLIC =>
        [⟨.DATA_MASKING, .LOW, "Basic protection for non-sensitive data"⟩]
  let recommendations := recommendations ++
    (match fileType with
     | .csv =>
         if piiFields.length > 3
         then [⟨.L_DIVERSITY, .MEDIUM, "Enhance k-anonymity for tabular PII data"⟩]
         else []
     | .image =>
         [⟨.FEDERATED_LEARNING, .HIGH,
           "Process images without sharing raw visual data"⟩]
     | .document =>
         [⟨.TOKENIZATION, .HIGH,
           "Replace document entities with privacy-safe tokens"⟩]
     | .other => [])
  recommendations.take 4

/-- The sensitivity-tier pass alone: the entries pushed by the first switch
of `recommendPrivacyTechniques` (privacyMetricsEngine.js:291-338). -/
def sensitivityTierPass (level : SensitivityLevel) :
    List TechniqueRecommendation :=
  match level with
  | .RESTRICTED | .TOP_SECRET =>
      [⟨.HOMOMORPHIC_ENCRYPTION, .HIGH,
        "Maximum privacy protection for highly sensitive data"⟩,
       ⟨.SECURE_MULTIPARTY, .HIGH,
        "Secure computation without revealing individual data points"⟩]
  | .CONFIDENTIAL =>
      [⟨.DIFFERENTIAL_PRIVACY, .HIGH,
        "Strong privacy guarantees with statistical utility"⟩,
       ⟨.FEDERATED_LEARNING, .MEDIUM,
        "Distributed processing without data centralization"⟩]
  | .INTERNAL =>
      [⟨.K_ANONYMITY, .MEDIUM, "Effective anonymization for internal use"⟩,
       ⟨.TOKENIZATION, .MEDIUM,
        "Replace sensitive values with non-sensitive tokens"⟩]
  | .PUBLIC =>
      [⟨.DATA_MASKING, .LOW, "Basic protection for non-sensitive data"⟩]

/-- The kind-specific pass alone: the entries pushed by the second switch of
`recommendPrivacyTechniques` (privacyMetricsEngine.js:340-367). -/
def kindSpecificPass (fileType : FileType)
    (piiFields : List SensitivityFinding) : List TechniqueRecommendation :=
  match fileType with
  | .csv =>
      if piiFields.length > 3
      then [⟨.L_DIVERSITY, .MEDIUM, "Enhance k-anonymity for tabular PII data"⟩]
      else []
  | .image =>
      [⟨.FEDERATED_LEARNING, .HIGH,
        "Process images without sharing raw visual data"⟩]
  | .document =>
      [⟨.TOKENIZATION, .HIGH,
        "Replace document entities with privacy-safe tokens"⟩]
  | .other => []

/-- The sensitivity-tier table exactly as the specification states it
(spec §4.3 pass 1), as technique/priority pairs. -/
def specTierTable (level : SensitivityLevel) : List (Technique × Priority) :=
  match level with
  | .TOP_SECRET | .RESTRICTED =>
      [(.HOMOMORPHIC_ENCRYPTION, .HIGH), (.SECURE_MULTIPARTY, .HIGH)]
  | .CONFIDENTIAL =>
      [(.DIFFERENTIAL_PRIVACY, .HIGH), (.FEDERATED_LEARNING, .MEDIUM)]
  | .INTERNAL =>
      [(.K_ANONYMITY, .MEDIUM), (.TOKENIZATION, .MEDIUM)]
  | .PUBLIC =>
      [(.DATA_MASKING, .LOW)]

/-- The kind-specific table exactly as the specification states it
(spec §4.3 pass 2), as technique/priority pairs. -/
def specKindTable (fileType : FileType) (piiCount : ℕ) :
    List (Technique × Priority) :=
  match fileType with
  | .csv => if piiCount > 3 then [(.L_DIVERSITY, .MEDIUM)] else []
  | .image => [(.FEDERATED_LEARNING, .HIGH)]
  | .document => [(.TOKENIZATION, .HIGH)]
  | .other => []

/-- C6: the recommender's output is exactly the first four entries of the
sensitivity-tier pass followed by the kind-specific pass, in insertion order
with no re-sorting and no deduplication, and its technique/priority pairs
agree with the specification's two tables. -/
theorem C6_recommendation_truncation (fileType : FileType)
    (level : SensitivityLevel) (piiFields : List SensitivityFinding) :
    recommendPrivacyTechniques fileType level piiFields
        = (sensitivityTierPass level ++ kindSpecificPass fileType piiFields).take 4
      ∧ (recommendPrivacyTechniques fileType level piiFields).map
            (fun r => (r.technique, r.priority))
        = (specTierTable level ++ specKindTable fileType piiFields.length).take 4 := by
  cases fileType <;> cases level <;>
    by_cases h : piiFields.length > 3 <;>
    simp [recommendPrivacyTechniques, sensitivityTierPass, kindSpecificPass,
      specTierTable, specKindTable, h]

/-- The explicit order of `Object.values(this.complianceFrameworks)` /
`Object.keys` insertion: GDPR, HIPAA, CCPA, SOX. -/
def frameworkList : List Framework :=
  [.GDPR, .HIPAA, .CCPA, .SOX]

/-- JavaScript `Math.max` on (possibly fractional) numbers. -/
def jsMaxQ (a b : ℚ) : ℚ :=
  if b ≤ a then a else b

/-- `calculateOverallScore` (privacyMetricsEngine.js:372-395): a weighted sum
of the framework-score mean (weight 0.4), the inverted sensitivity score
`Math.max(0, 100 - s)` (weight 0.3), and the mean technique effectiveness
(weight 0.3), divided by the weight sum 1.0 and rounded.  When the
recommendation list is empty the JS computes `0/0 = NaN`, which propagates
through the sum and `Math.round`; that NaN result is modelled as `none`. -/
def calculateOverallScore (complianceScores : Framework → ComplianceResult)
    (sensitivityScore : ℤ)
    (recommendedTechniques : List TechniqueRecommendation) : Option ℤ :=
  let complianceAvg : ℚ :=
    (frameworkList.map (fun fw => ((complianceScores fw).score : ℚ))).sum
      / frameworkList.length
  let sensScore : ℚ := jsMaxQ 0 (100 - (sensitivityScore : ℚ))
  match recommendedTechniques with
  | [] => none
  | _ :: _ =>
      let techniqueAvg : ℚ :=
        (recommendedTechniques.map
            (fun t => effectivenessScore t.technique)).sum
          / recommendedTechniques.length
      some (jsRound ((complianceAvg * 0.4 + sensScore * 0.3 + techniqueAvg * 0.3)
        / (0.4 + 0.3 + 0.3)))

/-- C3: with an empty recommendation list the aggregator's `0/0` yields NaN
(`none`), not the claimed meanTechniqueEffectiveness = 0; with a single
DATA_MASKING recommendation the same inputs yield
`round(0.4*85 + 0.3*80 + 0.3*60) = 76`, showing the NaN is caused solely by
the empty list. -/
theorem C3_empty_recommendations_nan :
    calculateOverallScore (fun _ => ⟨85, .COMPLIANT⟩) 20 [] = none
      ∧ calculateOverallScore (fun _ => ⟨85, .COMPLIANT⟩) 20
          [⟨.DATA_MASKING, .LOW, "Basic protection for non-sensitive data"⟩]
        = some 76 := by
  constructor
  · rfl
  · norm_num [calculateOverallScore, frameworkList, effectivenessScore,
      jsMaxQ, jsRound, Int.floor_eq_iff]

/-- A non-empty recommendation list always produces a defined (non-NaN)
overall score. -/
theorem calculateOverallScore_isSome_of_ne_nil
    (complianceScores : Framework → ComplianceResult) (sensitivityScore : ℤ)
    (recs : List TechniqueRecommendation) (h : recs ≠ []) :
    (calculateOverallScore complianceScores sensitivityScore recs).isSome := by
  cases recs with
  | nil => exact absurd rfl h
  | cons a t => simp [calculateOverallScore]

/-- C10: the sensitivity-tier pass always pushes at least one entry (with
DATA_MASKING the default for PUBLIC), so the recommender never returns an
empty list and the Score Aggregator's technique-effectiveness mean never
divides by zero inside the pipeline. -/
theorem C10_recommender_nonempty (fileType : FileType)
    (level : SensitivityLevel) (piiFields : List SensitivityFinding)
    (complianceScores : Framework → ComplianceResult)
    (sensitivityScore : ℤ) :
    recommendPrivacyTechniques fileType level piiFields ≠ []
      ∧ (calculateOverallScore complianceScores sensitivityScore
          (recommendPrivacyTechniques fileType level piiFields)).isSome := by
  have hne : recommendPrivacyTechniques fileType level piiFields ≠ [] := by
    cases fileType <;> cases level <;>
      by_cases h : piiFields.length > 3 <;>
      simp [recommendPrivacyTechniques, h]
  exact ⟨hne, calculateOverallScore_isSome_of_ne_nil _ _ _ hne⟩

/-- The four per-artifact risk tiers of `determineRiskLevel`. -/
inductive RiskLevel
  | LOW
  | MEDIUM
  | HIGH
  | CRITICAL
deriving DecidableEq, Repr

/-- `determineRiskLevel(overallScore)` (privacyMetricsEngine.js:397-402). -/
def determineRiskLevel (overallScore : ℤ) : RiskLevel :=
  if overallScore ≥ 85 then .LOW
  else if overallScore ≥ 70 then .MEDIUM
  else if overallScore ≥ 55 then .HIGH
  else .CRITICAL

/-- One `result.analysis` record as read by `calculateAggregatedMetrics`
(App.jsx:552-617): per-artifact privacy score, recommendations, PII fields,
risk level, per-framework compliance scores and the two auxiliary metrics. -/
structure AnalysisResult where
  privacyScore : ℚ
  recommendedTechniques : List TechniqueRecommendation
  piiFields : List SensitivityFinding
  riskLevel : RiskLevel
  complianceScores : Framework → ℤ
  encryptionStrength : ℚ
  anonymizationLevel : ℚ

/-- The dashboard summary object returned by `calculateAggregatedMetrics`.
Fields that the JS computes as `sum/totalFiles` are `none` when `totalFiles`
is 0 (the JS `0/0 = NaN`). -/
structure DashboardSummary where
  totalFiles : ℕ
  avgPrivacyScore : Option ℤ
  overallRisk : RiskLevel
  totalPIIFields : ℕ
  uniquePIITypes : ℕ
  privacyTechniques : List Technique
  riskDistribution : RiskLevel → ℕ
  complianceScores : Framework → Option ℤ
  encryptionStrength : Option ℤ
  anonymizationLevel : Option ℤ

/-- One `Set.add` step of a JavaScript `Set` kept as its insertion-ordered
element list. -/
def jsSetAdd {α : Type} [DecidableEq α] (acc : List α) (x : α) : List α :=
  if x ∈ acc then acc else acc ++ [x]

/-- A JavaScript `Set` built by inserting the elements of `l` in order
(`Array.from` of the set is this list). -/
def jsSetOfList {α : Type} [DecidableEq α] (l : List α) : List α :=
  l.foldl jsSetAdd []

/-- Folding `jsSetAdd` accumulates exactly the union of the elements seen. -/
theorem foldl_jsSetAdd_toFinset {α : Type} [DecidableEq α]
    (l : List α) (acc : List α) :
    (l.foldl jsSetAdd acc).toFinset = acc.toFinset ∪ l.toFinset := by
  induction l generalizing acc with
  | nil => simp
  | cons a t ih =>
    rw [List.foldl_cons, ih]
    unfold jsSetAdd
    split_ifs with hx
    · ext x
      simp only [Finset.mem_union, List.mem_toFinset, List.toFinset_cons,
        Finset.mem_insert]
      constructor
      · rintro (h | h)
        exacts [Or.inl h, Or.inr (Or.inr h)]
      · rintro (h | rfl | h)
        exacts [Or.inl h, Or.inl hx, Or.inr h]
    · ext x
      simp only [Finset.mem_union, List.mem_toFinset, List.toFinset_cons,
        Finset.mem_insert, List.mem_append, List.mem_singleton]
      tauto

/-- The insertion-ordered element list of a JS `Set` has the same underlying
finite set as the inserted list. -/
theorem jsSetOfList_toFinset {α : Type} [DecidableEq α] (l : List α) :
    (jsSetOfList l).toFinset = l.toFinset := by
  unfold jsSetOfList
  rw [foldl_jsSetAdd_toFinset]
  simp

/-- `calculateAggregatedMetrics(results)` (App.jsx:552-617): averages of the
per-artifact scores, a JS-`Set` union of recommended techniques, concatenated
PII fields with a unique-type count, per-tier risk counts, and per-framework
average compliance scores.  On an empty input every `sum/totalFiles` is the
JS `0/0 = NaN` (modelled `none`), and the risk ternary on NaN answers HIGH. -/
def calculateAggregatedMetrics (results : List AnalysisResult) :
    DashboardSummary :=
  let totalFiles := results.length
  let avgPrivacyScore : Option ℤ :=
    if totalFiles = 0 then none
    else some (jsRound ((results.map (·.privacyScore)).sum / totalFiles))
  let allTechniques : List Technique :=
    jsSetOfList (results.flatMap
      (fun r => r.recommendedTechniques.map (·.technique)))
  let allPIIFields : List SensitivityFinding := results.flatMap (·.piiFields)
  { totalFiles := totalFiles,
    avgPrivacyScore := avgPrivacyScore,
    overallRisk :=
      match avgPrivacyScore with
      | none => .HIGH
      | some v => if v ≥ 85 then .LOW else if v ≥ 70 then .MEDIUM else .HIGH,
    totalPIIFields := allPIIFields.length,
    uniquePIITypes := ((allPIIFields.map (·.type)).toFinset).card,
    privacyTechniques := allTechniques,
    riskDistribution := fun lv => results.countP (fun r => r.riskLevel == lv),
    complianceScores := fun fw =>
      if totalFiles = 0 then none
      else some (jsRound
        ((results.map (fun r => ((r.complianceScores fw : ℚ)))).sum / totalFiles)),
    encryptionStrength :=
      if totalFiles = 0 then none
      else some (jsRound ((results.map (·.encryptionStrength)).sum / totalFiles)),
    anonymizationLevel :=
      if totalFiles = 0 then none
      else some (jsRound ((results.map (·.anonymizationLevel)).sum / totalFiles)) }

/-- The order-independent content of a DashboardSummary: every field, with
the technique list taken as the set it denotes (the specification defines it
as a set union). -/
def dashboardContent (s : DashboardSummary) :
    ℕ × Option ℤ × RiskLevel × ℕ × ℕ × Finset Technique × (RiskLevel → ℕ)
      × (Framework → Option ℤ) × Option ℤ × Option ℤ :=
  (s.totalFiles, s.avgPrivacyScore, s.overallRisk, s.totalPIIFields,
    s.uniquePIITypes, s.privacyTechniques.toFinset, s.riskDistribution,
    s.complianceScores, s.encryptionStrength, s.anonymizationLevel)

/-- C7: the session summary is invariant under permutation of the input
sequence — every field of the DashboardSummary (average score, overall risk,
unique-technique set, risk-tier counts, per-framework average compliance,
PII totals and unique-PII-type count, and the two auxiliary averages) is the
same for any reordering. -/
theorem C7_summarize_permutation_invariant (l l' : List AnalysisResult)
    (_hne : l ≠ []) (hp : l.Perm l') :
    dashboardContent (calculateAggregatedMetrics l)
      = dashboardContent (calculateAggregatedMetrics l') := by
  have hlen : l.length = l'.length := hp.length_eq
  have hsum : ∀ f : AnalysisResult → ℚ, (l.map f).sum = (l'.map f).sum :=
    fun f => (hp.map f).sum_eq
  have hcnt : ∀ p : AnalysisResult → Bool, l.countP p = l'.countP p :=
    fun p => hp.countP_eq p
  have hpii : (l.flatMap (·.piiFields)).Perm (l'.flatMap (·.piiFields)) :=
    hp.flatMap_right _
  have htech :
      (l.flatMap (fun r => r.recommendedTechniques.map (·.technique))).toFinset
        = (l'.flatMap
            (fun r => r.recommendedTechniques.map (·.technique))).toFinset :=
    List.toFinset_eq_of_perm _ _ (hp.flatMap_right _)
  have hpiilen : (l.flatMap (·.piiFields)).length
      = (l'.flatMap (·.piiFields)).length := hpii.length_eq
  have hpiitypes : ((l.flatMap (·.piiFields)).map (·.type)).toFinset
      = ((l'.flatMap (·.piiFields)).map (·.type)).toFinset :=
    List.toFinset_eq_of_perm _ _ (hpii.map _)
  simp only [dashboardContent, calculateAggregatedMetrics,
    jsSetOfList_toFinset, hlen, hsum, hcnt, htech, hpiilen, hpiitypes]

/-- C7 witness inputs: two concrete per-artifact analysis records. -/
def witnessResultA : AnalysisResult :=
  { privacyScore := 80,
    recommendedTechniques := [⟨.DATA_MASKING, .LOW,
      "Basic protection for non-sensitive data"⟩],
    piiFields := [],
    riskLevel := .LOW,
    complianceScores := fun _ => 85,
    encryptionStrength := 256,
    anonymizationLevel := 85 }

/-- C7 witness inputs: second record, differing in every field. -/
def witnessResultB : AnalysisResult :=
  { privacyScore := 60,
    recommendedTechniques := [⟨.TOKENIZATION, .MEDIUM,
      "Replace sensitive values with non-sensitive tokens"⟩],
    piiFields := [⟨"email", .EMAIL, true, 80, 90⟩],
    riskLevel := .MEDIUM,
    complianceScores := fun _ => 70,
    encryptionStrength := 300,
    anonymizationLevel := 90 }

/-- C7 witness: the permutation-invariance statement applied to the concrete
two-element batch and its swap. -/
theorem C7_summarize_permutation_invariant_witness :
    ([witnessResultA, witnessResultB] ≠ [])
      ∧ List.Perm [witnessResultA, witnessResultB]
          [witnessResultB, witnessResultA]
      ∧ dashboardContent
            (calculateAggregatedMetrics [witnessResultA, witnessResultB])
          = dashboardContent
            (calculateAggregatedMetrics [witnessResultB, witnessResultA]) :=
  ⟨by simp, List.Perm.swap witnessResultB witnessResultA [],
    C7_summarize_permutation_invariant _ _ (by simp)
      (List.Perm.swap witnessResultB witnessResultA [])⟩

/-- C8: on the empty batch the code does not fail: it returns a
DashboardSummary whose average is the JS NaN (`none`, from `0/0`), whose
overall risk is HIGH (every NaN comparison is false), and zero counts. -/
theorem C8_empty_batch_returns_summary :
    (calculateAggregatedMetrics []).avgPrivacyScore = none
      ∧ (calculateAggregatedMetrics []).overallRisk = .HIGH
      ∧ (calculateAggregatedMetrics []).totalFiles = 0
      ∧ (calculateAggregatedMetrics []).complianceScores .GDPR = none := by
  exact ⟨rfl, rfl, rfl, rfl⟩

/-- Checks whether `needle` occurs as a contiguous segment of `hay`
(case handling is done by the callers). -/
def containsSeg (needle : List Char) : List Char → Bool
  | [] => needle.isPrefixOf []
  | c :: rest => needle.isPrefixOf (c :: rest) || containsSeg needle rest

/-- Case-insensitive substring test, modelling a bare alternative such as
`email` inside the JS regexes `/email|e-mail|mail/i`. -/
def ciContains (s pat : String) : Bool :=
  containsSeg pat.toLower.toList s.toLower.toList

/-- The suffix of `hay` right after the first occurrence of `needle`,
or `none` when `needle` does not occur. -/
def afterFirst (needle : List Char) : List Char → Option (List Char)
  | [] => if needle.isEmpty then some [] else none
  | c :: rest =>
      if needle.isPrefixOf (c :: rest) then some ((c :: rest).drop needle.length)
      else afterFirst needle rest

/-- Case-insensitive test for the JS regex form `a.*b`: an occurrence of `a`
followed (anywhere later) by an occurrence of `b`.  Checking `b` after the
first occurrence of `a` is equivalent, since the suffix after any later
occurrence is contained in the suffix after the first. -/
def ciSeq (s a b : String) : Bool :=
  match afterFirst a.toLower.toList s.toLower.toList with
  | some rest => containsSeg b.toLower.toList rest
  | none => false

/-- One row of the `sensitivePatterns` table of `analyzeCSVSensitivity`
(privacyMetricsEngine.js:111-122), with the regex rendered as a boolean test
on the column name. -/
structure CsvPattern where
  test : String → Bool
  type : SensitivityType
  isPII : Bool
  score : ℚ

/-- The ten `sensitivePatterns` rows (privacyMetricsEngine.js:111-122). -/
def sensitivePatterns : List CsvPattern :=
  [⟨fun c => ciContains c "email" || ciContains c "e-mail" || ciContains c "mail",
    .EMAIL, true, 80⟩,
   ⟨fun c => ciContains c "phone" || ciContains c "tel" || ciContains c "mobile",
    .PHONE, true, 75⟩,
   ⟨fun c => ciContains c "ssn" || ciSeq c "social" "security" || ciSeq c "tax" "id",
    .SSN, true, 95⟩,
   ⟨fun c => ciSeq c "credit" "card" || ciSeq c "card" "number" || ciContains c "cc",
    .CREDIT_CARD, true, 90⟩,
   ⟨fun c => ciContains c "address" || ciContains c "street" || ciContains c "zip"
      || ciContains c "postal", .ADDRESS, true, 70⟩,
   ⟨fun c => ciContains c "name" || ciSeq c "first" "name" || ciSeq c "last" "name",
    .NAME, true, 65⟩,
   ⟨fun c => ciSeq c "birth" "date" || ciContains c "dob" || ciContains c "age",
    .BIRTHDATE, true, 75⟩,
   ⟨fun c => ciContains c "salary" || ciContains c "income" || ciContains c "wage"
      || ciContains c "compensation", .FINANCIAL, true, 85⟩,
   ⟨fun c => ciContains c "medical" || ciContains c "health"
      || ciContains c "diagnosis" || ciContains c "treatment", .MEDICAL, true, 95⟩,
   ⟨fun c => ciContains c "passport" || ciContains c "license"
      || ciSeq c "id" "number", .ID_NUMBER, true, 90⟩]

/-- The per-column accumulator of `analyzeCSVSensitivity`: running
`maxScore`, `detectedType` and `isPII`. -/
structure MatchState where
  maxScore : ℚ
  detectedType : SensitivityType
  isPII : Bool

/-- The inner pattern loop of `analyzeCSVSensitivity`
(privacyMetricsEngine.js:127-140): keep the matching pattern with the
strictly greatest score, starting from `{0, GENERAL, false}`. -/
def bestMatch (column : String) : MatchState :=
  sensitivePatterns.foldl
    (fun st p =>
      if p.test column then
        if p.score > st.maxScore then ⟨p.score, p.type, p.isPII⟩ else st
      else st)
    ⟨0, .GENERAL, false⟩

/-- The random draws of `getRandomNumber` used by `analyzeCSVSensitivity`,
supplied as an oracle (the spec flags this randomness as an open question;
no claim depends on the drawn values). -/
structure Oracle where
  unmatchedScore : String → ℚ
  matchedConfidence : String → ℚ
  unmatchedConfidence : String → ℚ

/-- `analyzeCSVSensitivity` (privacyMetricsEngine.js:110-152): one finding
per detected column; `maxScore || getRandomNumber(10, 30)` gives unmatched
columns the oracle's fallback score. -/
def analyzeCSVSensitivity (o : Oracle) (detectedColumns : List String) :
    List SensitivityFinding :=
  detectedColumns.map fun column =>
    let st := bestMatch column
    { field := column,
      type := st.detectedType,
      isPII := st.isPII,
      sensitivityScore :=
        if st.maxScore = 0 then o.unmatchedScore column else st.maxScore,
      confidence :=
        if st.maxScore > 0 then o.matchedConfidence column
        else o.unmatchedConfidence column }

/-- A detected image object (`fileAnalysis.insights.detectedObjects` entry);
`confidence` is the already-parsed number. -/
structure ImageObject where
  type : String
  confidence : ℚ

/-- A detected document entity (`fileAnalysis.insights.detectedEntities`
entry). -/
structure DocEntity where
  type : String
  count : ℕ

/-- Closed-enum rendering of the JS `type` strings stored on findings
(`obj.type.toUpperCase()` / `entity.type`): the names the engine's tables can
react to map to their constructors, anything else to GENERAL. -/
def sensitivityTypeOfUpper (u : String) : SensitivityType :=
  if u = "EMAIL" then .EMAIL
  else if u = "PHONE" then .PHONE
  else if u = "SSN" then .SSN
  else if u = "CREDIT_CARD" then .CREDIT_CARD
  else if u = "ADDRESS" then .ADDRESS
  else if u = "NAME" then .NAME
  else if u = "BIRTHDATE" then .BIRTHDATE
  else if u = "FINANCIAL" then .FINANCIAL
  else if u = "MEDICAL" then .MEDICAL
  else if u = "ID_NUMBER" then .ID_NUMBER
  else if u = "PERSON" then .PERSON
  else if u = "ORGANIZATION" then .ORGANIZATION
  else if u = "LOCATION" then .LOCATION
  else if u = "DATE" then .DATE
  else if u = "MONEY" then .MONEY
  else if u = "TEXT" then .TEXT
  else if u = "DOCUMENT" then .DOCUMENT
  else if u = "VEHICLE" then .VEHICLE
  else if u = "BUILDING" then .BUILDING
  else .GENERAL

/-- `analyzeImageSensitivity` (privacyMetricsEngine.js:154-195): the fixed
per-object-type score/PII table, confidence scaled by 100. -/
def analyzeImageSensitivity (detectedObjects : List ImageObject) :
    List SensitivityFinding :=
  detectedObjects.map fun obj =>
    let lower := obj.type.toLower
    let sp : ℚ × Bool :=
      if lower = "person" then (85, true)
      else if lower = "text" then (70, true)
      else if lower = "document" then (70, true)
      else if lower = "vehicle" then (60, false)
      else if lower = "building" then (40, false)
      else (25, false)
    { field := "Image_" ++ obj.type,
      type := sensitivityTypeOfUpper obj.type.toUpper,
      isPII := sp.2,
      sensitivityScore := sp.1,
      confidence := obj.confidence * 100 }

/-- `analyzeDocumentSensitivity` (privacyMetricsEngine.js:197-236): the fixed
per-entity-type score/PII table with default score 50 / PII true; the JS
also copies `entity.count` onto the finding, which nothing downstream reads. -/
def analyzeDocumentSensitivity (detectedEntities : List DocEntity) :
    List SensitivityFinding :=
  detectedEntities.map fun entity =>
    let sp : ℚ × Bool :=
      if entity.type = "PERSON" then (80, true)
      else if entity.type = "ORGANIZATION" then (40, false)
      else if entity.type = "LOCATION" then (60, true)
      else if entity.type = "DATE" then (30, false)
      else if entity.type = "MONEY" then (70, true)
      else (50, true)
    { field := "Doc_" ++ entity.type,
      type := sensitivityTypeOfUpper entity.type,
      isPII := sp.2,
      sensitivityScore := sp.1,
      confidence := 85 }

/-- The structured signals of one artifact (`fileAnalysis` with its
`insights` flattened; absent arrays are empty lists, matching `|| []`). -/
structure FileAnalysis where
  fileType : FileType
  detectedColumns : List String
  detectedObjects : List ImageObject
  detectedEntities : List DocEntity

/-- The `analysis` object built by `analyzeSensitivity`
(privacyMetricsEngine.js:79-108): findings by file type (the switch has no
default, so an unknown type leaves `dataTypes` empty), then score, level and
PII filter. -/
structure SensitivityAnalysis where
  dataTypes : List SensitivityFinding
  piiFields : List SensitivityFinding
  sensitivityLevel : SensitivityLevel
  sensitivityScore : ℤ

/-- `analyzeSensitivity` (privacyMetricsEngine.js:79-108). -/
def analyzeSensitivity (o : Oracle) (fa : FileAnalysis) : SensitivityAnalysis :=
  let dataTypes :=
    match fa.fileType with
    | .csv => analyzeCSVSensitivity o fa.detectedColumns
    | .image => analyzeImageSensitivity fa.detectedObjects
    | .document => analyzeDocumentSensitivity fa.detectedEntities
    | .other => []
  { dataTypes := dataTypes,
    piiFields := dataTypes.filter (·.isPII),
    sensitivityLevel := getSensitivityLevel (calculateSensitivityScore dataTypes),
    sensitivityScore := calculateSensitivityScore dataTypes }

/-- The two runtime exceptions reachable inside the `try` block of
`assessPrivacy`: a TypeError from reading a property of a missing
`fileAnalysis`, and the TypeError from calling the nonexistent method
`this.generatePrivacyBreakdown`. -/
inductive JsError
  | typeError
  | undefinedFunction
deriving DecidableEq, Repr

/-- The `metrics` object assembled by `assessPrivacy`, restricted to the
fields with decision content (the dashboard/explanation fields are
presentation). -/
structure PrivacyMetrics where
  overallScore : Option ℤ
  riskLevel : RiskLevel
  complianceScores : Framework → Option ComplianceResult
  piiFields : List SensitivityFinding
  sensitivityLevel : SensitivityLevel
  recommendedTechniques : List TechniqueRecommendation
  error : Option JsError

/-- `getDefaultMetrics(error)` (privacyMetricsEngine.js:540-555): the
fallback object returned by the catch branch — fixed score 75, risk MEDIUM,
empty compliance map, no findings, level INTERNAL, no recommendations. -/
def getDefaultMetrics (e : JsError) : PrivacyMetrics :=
  { overallScore := some 75,
    riskLevel := .MEDIUM,
    complianceScores := fun _ => none,
    piiFields := [],
    sensitivityLevel := .INTERNAL,
    recommendedTechniques := [],
    error := some e }

/-- Steps 1-5 of the `try` block of `assessPrivacy`
(privacyMetricsEngine.js:47-61): sensitivity analysis, compliance scores,
recommendations, overall score and risk level.  Total — none of these steps
can throw; a NaN overall score (empty recommendations) fails every `>=`
comparison in `determineRiskLevel` and lands on CRITICAL. -/
def stepsOneToFive (o : Oracle) (fa : FileAnalysis) : PrivacyMetrics :=
  let sa := analyzeSensitivity o fa
  let compliance : Framework → ComplianceResult :=
    fun fw => assessCompliance sa.sensitivityLevel sa.piiFields fw
  let recs := recommendPrivacyTechniques fa.fileType sa.sensitivityLevel sa.piiFields
  let overall := calculateOverallScore compliance sa.sensitivityScore recs
  { overallScore := overall,
    riskLevel :=
      match overall with
      | none => .CRITICAL
      | some v => determineRiskLevel v,
    complianceScores := fun fw => some (compliance fw),
    piiFields := sa.piiFields,
    sensitivityLevel := sa.sensitivityLevel,
    recommendedTechniques := recs,
    error := none }

/-- The `try` block of `assessPrivacy` (privacyMetricsEngine.js:47-72).
A missing `fileAnalysis` throws a TypeError at the first property access of
step 1.  Otherwise steps 1-5 complete, and step 6 calls
`this.generatePrivacyBreakdown(fileAnalysis, metrics)` — a method that is
never defined anywhere in the class — so every call throws a TypeError
before reaching the `return metrics` statement. -/
def tryAssessPrivacy (o : Oracle) (input : Option FileAnalysis) :
    Except JsError PrivacyMetrics :=
  match input with
  | none => .error .typeError
  | some fa =>
      let _metrics := stepsOneToFive o fa
      .error .undefinedFunction

/-- `assessPrivacy` (privacyMetricsEngine.js:35-77): the catch branch maps
every exception to `getDefaultMetrics(error)`. -/
def assessPrivacy (o : Oracle) (input : Option FileAnalysis) : PrivacyMetrics :=
  match tryAssessPrivacy o input with
  | .ok m => m
  | .error e => getDefaultMetrics e

/-- C9: `assessPrivacy` never throws — for every input, malformed (`none`)
or well-formed, the try block raises internally (a TypeError on property
access for a missing input; otherwise the call to the nonexistent
`generatePrivacyBreakdown` method in step 6) and the catch-all returns the
fixed default metrics.  In particular no malformed input ever surfaces an
error to the caller, and no well-formed input ever receives a computed
assessment. -/
theorem C9_assess_always_defaults (o : Oracle) (input : Option FileAnalysis) :
    assessPrivacy o input
      = getDefaultMetrics
          (match input with
           | none => JsError.typeError
           | some _ => JsError.undefinedFunction) := by
  cases input <;> rfl

end Opal
